import Mathlib

/-!
Verification development for the QCBOR decoder (headers
`src/inc/qcbor/qcbor_common.h` and `src/inc/qcbor/qcbor_decode.h`).

The repository ships only the two public headers; the decoder engine
(`qcbor_decode.c`) is not present.  Constants, the `QCBORItem` shape and
the `static inline` functions below are translated directly from the
headers.  The engine itself (head reader, item decoder, nesting tracker,
pre-order traversal, map mode, finish validator) is modelled from the
specification, as marked on each definition.

Machine integers are represented as `Nat`/`Int`; a byte is a `Nat`
(interpreted mod 256 where the bit layout matters).
-/

/-- QCBOR_SUCCESS from qcbor_common.h. -/
def QCBOR_SUCCESS : Nat := 0

/-- QCBOR_ERR_ARRAY_OR_MAP_STILL_OPEN from qcbor_common.h. -/
def QCBOR_ERR_ARRAY_OR_MAP_STILL_OPEN : Nat := 8

/-- QCBOR_ERR_BAD_TYPE_7 from qcbor_common.h. -/
def QCBOR_ERR_BAD_TYPE_7 : Nat := 20

/-- QCBOR_ERR_EXTRA_BYTES from qcbor_common.h. -/
def QCBOR_ERR_EXTRA_BYTES : Nat := 21

/-- QCBOR_ERR_UNSUPPORTED from qcbor_common.h. -/
def QCBOR_ERR_UNSUPPORTED : Nat := 22

/-- QCBOR_ERR_ARRAY_OR_MAP_UNCONSUMED from qcbor_common.h. -/
def QCBOR_ERR_ARRAY_OR_MAP_UNCONSUMED : Nat := 23

/-- QCBOR_ERR_BAD_INT from qcbor_common.h. -/
def QCBOR_ERR_BAD_INT : Nat := 24

/-- QCBOR_START_OF_NOT_WELL_FORMED_ERRORS from qcbor_common.h. -/
def QCBOR_START_OF_NOT_WELL_FORMED_ERRORS : Nat := 20

/-- QCBOR_END_OF_NOT_WELL_FORMED_ERRORS from qcbor_common.h. -/
def QCBOR_END_OF_NOT_WELL_FORMED_ERRORS : Nat := 39

/-- QCBOR_START_OF_UNRECOVERABLE_DECODE_ERRORS from qcbor_common.h. -/
def QCBOR_START_OF_UNRECOVERABLE_DECODE_ERRORS : Nat := 30

/-- QCBOR_END_OF_UNRECOVERABLE_DECODE_ERRORS from qcbor_common.h. -/
def QCBOR_END_OF_UNRECOVERABLE_DECODE_ERRORS : Nat := 59

/-- QCBOR_ERR_INDEFINITE_STRING_CHUNK from qcbor_common.h. -/
def QCBOR_ERR_INDEFINITE_STRING_CHUNK : Nat := 30

/-- QCBOR_ERR_HIT_END from qcbor_common.h. -/
def QCBOR_ERR_HIT_END : Nat := 31

/-- QCBOR_ERR_BAD_BREAK from qcbor_common.h. -/
def QCBOR_ERR_BAD_BREAK : Nat := 32

/-- QCBOR_ERR_INPUT_TOO_LARGE from qcbor_common.h. -/
def QCBOR_ERR_INPUT_TOO_LARGE : Nat := 40

/-- QCBOR_ERR_ARRAY_DECODE_NESTING_TOO_DEEP from qcbor_common.h. -/
def QCBOR_ERR_ARRAY_DECODE_NESTING_TOO_DEEP : Nat := 41

/-- QCBOR_ERR_ARRAY_DECODE_TOO_LONG from qcbor_common.h. -/
def QCBOR_ERR_ARRAY_DECODE_TOO_LONG : Nat := 42

/-- QCBOR_ERR_STRING_TOO_LONG from qcbor_common.h. -/
def QCBOR_ERR_STRING_TOO_LONG : Nat := 43

/-- QCBOR_ERR_BAD_EXP_AND_MANTISSA from qcbor_common.h. -/
def QCBOR_ERR_BAD_EXP_AND_MANTISSA : Nat := 44

/-- QCBOR_ERR_NO_STRING_ALLOCATOR from qcbor_common.h. -/
def QCBOR_ERR_NO_STRING_ALLOCATOR : Nat := 45

/-- QCBOR_ERR_STRING_ALLOCATE from qcbor_common.h. -/
def QCBOR_ERR_STRING_ALLOCATE : Nat := 46

/-- QCBOR_ERR_MAP_LABEL_TYPE from qcbor_common.h. -/
def QCBOR_ERR_MAP_LABEL_TYPE : Nat := 47

/-- QCBOR_ERR_UNRECOVERABLE_TAG_CONTENT from qcbor_common.h. -/
def QCBOR_ERR_UNRECOVERABLE_TAG_CONTENT : Nat := 48

/-- QCBOR_ERR_TOO_MANY_TAGS from qcbor_common.h. -/
def QCBOR_ERR_TOO_MANY_TAGS : Nat := 60

/-- QCBOR_ERR_UNEXPECTED_TYPE from qcbor_common.h. -/
def QCBOR_ERR_UNEXPECTED_TYPE : Nat := 61

/-- QCBOR_ERR_DUPLICATE_LABEL from qcbor_common.h. -/
def QCBOR_ERR_DUPLICATE_LABEL : Nat := 62

/-- QCBOR_ERR_INT_OVERFLOW from qcbor_common.h. -/
def QCBOR_ERR_INT_OVERFLOW : Nat := 64

/-- QCBOR_ERR_DATE_OVERFLOW from qcbor_common.h. -/
def QCBOR_ERR_DATE_OVERFLOW : Nat := 65

/-- QCBOR_ERR_EXIT_MISMATCH from qcbor_common.h. -/
def QCBOR_ERR_EXIT_MISMATCH : Nat := 66

/-- QCBOR_ERR_NO_MORE_ITEMS from qcbor_common.h. -/
def QCBOR_ERR_NO_MORE_ITEMS : Nat := 67

/-- QCBOR_ERR_LABEL_NOT_FOUND from qcbor_common.h. -/
def QCBOR_ERR_LABEL_NOT_FOUND : Nat := 68

/-- QCBOR_ERR_NUMBER_SIGN_CONVERSION from qcbor_common.h. -/
def QCBOR_ERR_NUMBER_SIGN_CONVERSION : Nat := 69

/-- QCBOR_ERR_CONVERSION_UNDER_OVER_FLOW from qcbor_common.h. -/
def QCBOR_ERR_CONVERSION_UNDER_OVER_FLOW : Nat := 70

/-- QCBOR_ERR_MAP_NOT_ENTERED from qcbor_common.h. -/
def QCBOR_ERR_MAP_NOT_ENTERED : Nat := 71

/-- QCBOR_ERR_CALLBACK_FAIL from qcbor_common.h. -/
def QCBOR_ERR_CALLBACK_FAIL : Nat := 72

/-- QCBOR_ERR_RECOVERABLE_BAD_TAG_CONTENT from qcbor_common.h. -/
def QCBOR_ERR_RECOVERABLE_BAD_TAG_CONTENT : Nat := 78

/-- QCBOR_TYPE_NONE from qcbor_decode.h. -/
def QCBOR_TYPE_NONE : Nat := 0

/-- QCBOR_TYPE_ANY from qcbor_decode.h. -/
def QCBOR_TYPE_ANY : Nat := 1

/-- QCBOR_TYPE_INT64 from qcbor_decode.h: an integer that decoded either
between INT64_MIN and INT32_MIN or INT32_MAX and INT64_MAX. -/
def QCBOR_TYPE_INT64 : Nat := 2

/-- QCBOR_TYPE_UINT64 from qcbor_decode.h: an integer that decoded to
more than INT64_MAX and up to UINT64_MAX. -/
def QCBOR_TYPE_UINT64 : Nat := 3

/-- QCBOR_TYPE_ARRAY from qcbor_decode.h. -/
def QCBOR_TYPE_ARRAY : Nat := 4

/-- QCBOR_TYPE_MAP from qcbor_decode.h. -/
def QCBOR_TYPE_MAP : Nat := 5

/-- QCBOR_TYPE_BYTE_STRING from qcbor_decode.h. -/
def QCBOR_TYPE_BYTE_STRING : Nat := 6

/-- QCBOR_TYPE_TEXT_STRING from qcbor_decode.h. -/
def QCBOR_TYPE_TEXT_STRING : Nat := 7

/-- QCBOR_TYPE_UKNOWN_SIMPLE from qcbor_decode.h (name as in the source). -/
def QCBOR_TYPE_UKNOWN_SIMPLE : Nat := 13

/-- QCBOR_TYPE_FALSE from qcbor_decode.h. -/
def QCBOR_TYPE_FALSE : Nat := 20

/-- QCBOR_TYPE_TRUE from qcbor_decode.h. -/
def QCBOR_TYPE_TRUE : Nat := 21

/-- QCBOR_TYPE_NULL from qcbor_decode.h. -/
def QCBOR_TYPE_NULL : Nat := 22

/-- QCBOR_TYPE_UNDEF from qcbor_decode.h. -/
def QCBOR_TYPE_UNDEF : Nat := 23

/-- QCBOR_TYPE_FLOAT from qcbor_decode.h. -/
def QCBOR_TYPE_FLOAT : Nat := 26

/-- QCBOR_TYPE_DOUBLE from qcbor_decode.h. -/
def QCBOR_TYPE_DOUBLE : Nat := 27

/-- QCBOR_TYPE_MAP_AS_ARRAY from qcbor_decode.h. -/
def QCBOR_TYPE_MAP_AS_ARRAY : Nat := 32

/-- QCBOR_TYPE_BREAK from qcbor_decode.h; used internally, never returned. -/
def QCBOR_TYPE_BREAK : Nat := 31

/-- QCBOR_CONVERT_TYPE_INT64 from qcbor_decode.h. -/
def QCBOR_CONVERT_TYPE_INT64 : Nat := 0x01

/-- QCBOR_CONVERT_TYPE_UINT64 from qcbor_decode.h. -/
def QCBOR_CONVERT_TYPE_UINT64 : Nat := 0x02

/-- QCBOR_CONVERT_TYPE_FLOAT from qcbor_decode.h. -/
def QCBOR_CONVERT_TYPE_FLOAT : Nat := 0x04

/-- QCBOR_CONVERT_TYPE_DOUBLE from qcbor_decode.h. -/
def QCBOR_CONVERT_TYPE_DOUBLE : Nat := 0x40

/-- QCBOR_MAX_ITEMS_IN_ARRAY from qcbor_common.h: UINT16_MAX - 1; the
value UINT16_MAX is used to track indefinite-length arrays. -/
def QCBOR_MAX_ITEMS_IN_ARRAY : Nat := 65535 - 1

/-- The UINT16_MAX sentinel stored in `val.uCount` for indefinite-length
arrays and maps (qcbor_decode.h, documentation of `val.uCount`). -/
def QCBOR_COUNT_INDEFINITE : Nat := 65535

/-- Modelled from the spec: QCBOR_MAX_ARRAY_NESTING is defined in
qcbor_private.h, which is not in src/; the spec says the nesting stack
has a compile-time maximum depth (typically 8-16).  The usual value 15
is used; no theorem below depends on the exact number. -/
def QCBOR_MAX_ARRAY_NESTING : Nat := 15

/-- Modelled from the spec: QCBOR_MAX_TAGS_PER_ITEM is defined in
qcbor_private.h, which is not in src/; the spec only says more than
MAX_TAGS_PER_ITEM tags give TOO_MANY_TAGS.  The usual value 4 is used;
no theorem below depends on the exact number. -/
def QCBOR_MAX_TAGS_PER_ITEM : Nat := 4

/-- INT64_MAX as a natural number. -/
def INT64_MAX_N : Nat := 2 ^ 63 - 1

/-- The value of a decoded item: the `val` union of `QCBORItem` in
qcbor_decode.h, as a sum type.  Floating-point payloads are kept as the
raw encoded bits (`floatBits`) because no claim depends on their numeric
interpretation. -/
inductive QCBORValue where
  | none : QCBORValue
  | int64 (n : Int) : QCBORValue
  | uint64 (n : Nat) : QCBORValue
  | string (bytes : List Nat) : QCBORValue
  | count (n : Nat) : QCBORValue
  | floatBits (bits : Nat) : QCBORValue
  | simple (n : Nat) : QCBORValue
deriving DecidableEq

/-- The label of a map entry: the `label` union of `QCBORItem` together
with `uLabelType`, as a sum type. -/
inductive QCBORLabel where
  | none : QCBORLabel
  | int64 (n : Int) : QCBORLabel
  | uint64 (n : Nat) : QCBORLabel
  | byteString (s : List Nat) : QCBORLabel
  | textString (s : List Nat) : QCBORLabel
deriving DecidableEq

/-- The `QCBORItem` structure of qcbor_decode.h: type, nesting levels,
value, label and the tags seen on the item (the `uTagBits` bitmap is
represented as the list of tag numbers). -/
structure QCBORItem where
  uDataType : Nat
  uNestingLevel : Nat
  uNextNestLevel : Nat
  val : QCBORValue
  label : QCBORLabel
  tags : List Nat
deriving DecidableEq

/-- Modelled from the spec: one frame of the nesting tracker
(`QCBORDecodeNesting` lives in qcbor_private.h, not in src/): the kind
of the open level and the remaining entry count, `Option.none` meaning
an indefinite-length level.  For maps the count is in pairs. -/
structure QCBORNestingFrame where
  isMap : Bool
  remaining : Option Nat
deriving DecidableEq

/-- Modelled from the spec: the decoder context (`QCBORDecodeContext`
is opaque in qcbor_decode.h; its fields live in qcbor_private.h, not in
src/).  `bytes` is the unconsumed input, `frames` the nesting stack
(innermost first), `boundedLevel`/`boundedStart` the map-mode bound and
the recorded rewind point, `uLastError` the sticky error cell, and the
two allocator flags stand for the configured string allocator and its
destructor having been invoked. -/
structure QCBORDecodeContext where
  bytes : List Nat
  frames : List QCBORNestingFrame
  boundedLevel : Option Nat
  boundedStart : Option (List Nat × QCBORNestingFrame)
  uLastError : Nat
  allocatorConfigured : Bool
  destructorCalled : Bool
deriving DecidableEq

/-- The initial decoder context over an input buffer: QCBORDecode_Init
(declared in qcbor_decode.h; modelled from the spec for the missing
body).  Only QCBOR_DECODE_MODE_NORMAL is modelled. -/
def QCBORDecode_Init (encodedCBOR : List Nat) : QCBORDecodeContext :=
  { bytes := encodedCBOR
    frames := []
    boundedLevel := Option.none
    boundedStart := Option.none
    uLastError := QCBOR_SUCCESS
    allocatorConfigured := false
    destructorCalled := false }

/-- The output of the head reader: major type, additional-info bits,
decoded argument, and the remaining bytes after the head. -/
structure QCBORHead where
  major : Nat
  ainfo : Nat
  arg : Nat
  rest : List Nat
deriving DecidableEq

/-- Read `k` bytes big-endian as one argument value; `Option.none` when
fewer than `k` bytes remain (HIT_END). -/
def readBigEndian : Nat → List Nat → Option (Nat × List Nat)
  | 0, bs => some (0, bs)
  | _ + 1, [] => Option.none
  | k + 1, b :: bs =>
    match readBigEndian k bs with
    | Option.none => Option.none
    | some (v, r) => some (b % 256 * 256 ^ k + v, r)

/-- Modelled from the spec: the Head Reader (DecodeTypeAndNumber of the
missing qcbor_decode.c).  Extracts `major = byte >> 5` and
`ainfo = byte & 0x1f`; `ainfo < 24` is an immediate argument,
24..27 read 1/2/4/8 following bytes big-endian, 28..30 are reserved
(UNSUPPORTED), and 31 is indefinite length, rejected with BAD_INT for
the integer majors 0 and 1 (and for tags, major 6, which cannot be
indefinite). -/
def decodeHead (bs : List Nat) : Except Nat QCBORHead :=
  match bs with
  | [] => .error QCBOR_ERR_HIT_END
  | b :: rest =>
    let major := b % 256 / 32
    let ainfo := b % 32
    if ainfo < 24 then
      .ok ⟨major, ainfo, ainfo, rest⟩
    else if ainfo ≤ 27 then
      match readBigEndian (2 ^ (ainfo - 24)) rest with
      | Option.none => .error QCBOR_ERR_HIT_END
      | some (v, r) => .ok ⟨major, ainfo, v, r⟩
    else if ainfo ≤ 30 then
      .error QCBOR_ERR_UNSUPPORTED
    else
      if major ≤ 1 ∨ major = 6 then .error QCBOR_ERR_BAD_INT
      else .ok ⟨major, ainfo, 0, rest⟩

/-- Take `n` payload bytes; `Option.none` when fewer remain (HIT_END). -/
def takePayload (n : Nat) (bs : List Nat) : Option (List Nat × List Nat) :=
  if bs.length < n then Option.none else some (bs.take n, bs.drop n)

/-- An item with only type and value set, before nesting levels and
labels are filled in. -/
def mkProtoItem (t : Nat) (v : QCBORValue) (tags : List Nat) : QCBORItem :=
  { uDataType := t
    uNestingLevel := 0
    uNextNestLevel := 0
    val := v
    label := QCBORLabel.none
    tags := tags }

/-- Modelled from the spec: assembly of one typed item from a decoded
head (the Item Decoder of the missing qcbor_decode.c).  For major
type 0 the split between QCBOR_TYPE_INT64 and QCBOR_TYPE_UINT64 follows
the doc comments of those constants in qcbor_decode.h (an integer is
UINT64 only when it decoded to more than INT64_MAX); spec.md section
4.2 instead assigns UINT64 to every major-0 item, which contradicts the
header and is refuted below.  Indefinite-length strings are rejected
with NO_STRING_ALLOCATOR because the modelled context has no string
allocator configured.  Arrays and maps above QCBOR_MAX_ITEMS_IN_ARRAY
entries are rejected and indefinite ones carry the UINT16_MAX count
sentinel.  Floats of the three widths are kept as raw bits in a DOUBLE
item. -/
def assembleItem (h : QCBORHead) (tags : List Nat) :
    Except Nat (QCBORItem × List Nat) :=
  if h.major = 0 then
    if h.arg ≤ INT64_MAX_N then
      .ok (mkProtoItem QCBOR_TYPE_INT64 (QCBORValue.int64 h.arg) tags, h.rest)
    else
      .ok (mkProtoItem QCBOR_TYPE_UINT64 (QCBORValue.uint64 h.arg) tags, h.rest)
  else if h.major = 1 then
    if h.arg ≤ INT64_MAX_N then
      .ok (mkProtoItem QCBOR_TYPE_INT64 (QCBORValue.int64 (-(h.arg : Int) - 1)) tags, h.rest)
    else
      .error QCBOR_ERR_INT_OVERFLOW
  else if h.major = 2 ∨ h.major = 3 then
    if h.ainfo = 31 then
      .error QCBOR_ERR_NO_STRING_ALLOCATOR
    else
      match takePayload h.arg h.rest with
      | Option.none => .error QCBOR_ERR_HIT_END
      | some (s, r) =>
        let t := if h.major = 2 then QCBOR_TYPE_BYTE_STRING else QCBOR_TYPE_TEXT_STRING
        .ok (mkProtoItem t (QCBORValue.string s) tags, r)
  else if h.major = 4 ∨ h.major = 5 then
    let t := if h.major = 4 then QCBOR_TYPE_ARRAY else QCBOR_TYPE_MAP
    if h.ainfo = 31 then
      .ok (mkProtoItem t (QCBORValue.count QCBOR_COUNT_INDEFINITE) tags, h.rest)
    else if h.arg > QCBOR_MAX_ITEMS_IN_ARRAY then
      .error QCBOR_ERR_ARRAY_DECODE_TOO_LONG
    else
      .ok (mkProtoItem t (QCBORValue.count h.arg) tags, h.rest)
  else
    -- major 7: simple values, floats and BREAK
    if h.ainfo = 31 then
      .ok (mkProtoItem QCBOR_TYPE_BREAK QCBORValue.none tags, h.rest)
    else if h.ainfo = 20 then
      .ok (mkProtoItem QCBOR_TYPE_FALSE QCBORValue.none tags, h.rest)
    else if h.ainfo = 21 then
      .ok (mkProtoItem QCBOR_TYPE_TRUE QCBORValue.none tags, h.rest)
    else if h.ainfo = 22 then
      .ok (mkProtoItem QCBOR_TYPE_NULL QCBORValue.none tags, h.rest)
    else if h.ainfo = 23 then
      .ok (mkProtoItem QCBOR_TYPE_UNDEF QCBORValue.none tags, h.rest)
    else if h.ainfo = 24 then
      if h.arg < 32 then .error QCBOR_ERR_BAD_TYPE_7
      else .ok (mkProtoItem QCBOR_TYPE_UKNOWN_SIMPLE (QCBORValue.simple h.arg) tags, h.rest)
    else if 25 ≤ h.ainfo ∧ h.ainfo ≤ 27 then
      .ok (mkProtoItem QCBOR_TYPE_DOUBLE (QCBORValue.floatBits h.arg) tags, h.rest)
    else
      .ok (mkProtoItem QCBOR_TYPE_UKNOWN_SIMPLE (QCBORValue.simple h.ainfo) tags, h.rest)

/-- Modelled from the spec: the Tag Accumulator (GetNext_TaggedItem of
the missing qcbor_decode.c).  Consecutive major-6 heads are collected
into a tag list for the following item; the fuel argument is only to
make the recursion structural and is always called with more fuel than
there are input bytes, so the fuel-exhaustion branch is unreachable. -/
def decodeTagsThenHead (fuel : Nat) (bs : List Nat) :
    Except Nat (List Nat × QCBORHead) :=
  match fuel with
  | 0 => .error QCBOR_ERR_HIT_END
  | fuel + 1 =>
    match decodeHead bs with
    | .error e => .error e
    | .ok h =>
      if h.major = 6 then
        match decodeTagsThenHead fuel h.rest with
        | .error e => .error e
        | .ok (ts, h2) => .ok (h.arg :: ts, h2)
      else
        .ok ([], h)

/-- Modelled from the spec: decode one complete raw item (tags, head,
payload), with no nesting bookkeeping.  Items carrying more than
QCBOR_MAX_TAGS_PER_ITEM tags are rejected with TOO_MANY_TAGS. -/
def decodeItemRaw (bs : List Nat) : Except Nat (QCBORItem × List Nat) :=
  match decodeTagsThenHead (bs.length + 1) bs with
  | .error e => .error e
  | .ok (tags, h) =>
    if tags.length > QCBOR_MAX_TAGS_PER_ITEM then
      .error QCBOR_ERR_TOO_MANY_TAGS
    else
      assembleItem h tags

/-- Modelled from the spec: decrement the remaining count of the
innermost definite-length nesting frame (DecodeNesting_DecrementCount of
the missing qcbor_decode.c); indefinite frames and the top level are
unchanged. -/
def framesDecrement : List QCBORNestingFrame → List QCBORNestingFrame
  | [] => []
  | f :: rest =>
    match f.remaining with
    | some (n + 1) => { f with remaining := some n } :: rest
    | _ => f :: rest

/-- Modelled from the spec: the nesting frame opened by an array or map
item, if any (DecodeNesting_Descend of the missing qcbor_decode.c).
Indefinite containers (count = UINT16_MAX sentinel) open an indefinite
frame; empty definite containers open nothing; other definite
containers open a frame with their count remaining (pairs, for maps). -/
def itemFrame (it : QCBORItem) : Option QCBORNestingFrame :=
  if it.uDataType = QCBOR_TYPE_ARRAY ∨ it.uDataType = QCBOR_TYPE_MAP then
    match it.val with
    | QCBORValue.count n =>
      if n = QCBOR_COUNT_INDEFINITE then
        some ⟨it.uDataType = QCBOR_TYPE_MAP, Option.none⟩
      else if n = 0 then
        Option.none
      else
        some ⟨it.uDataType = QCBOR_TYPE_MAP, some n⟩
    | _ => Option.none
  else
    Option.none

/-- Modelled from the spec: the look-ahead ascender run after an item is
decoded.  While the innermost frame is a finished definite level
(remaining 0) or an indefinite level whose next byte is the BREAK byte
0xff, pop it (consuming the BREAK); map-mode clamps the ascent at the
bounded level `bound` (0 when no level is entered). -/
def nestingAscend : List Nat → List QCBORNestingFrame → Nat →
    List Nat × List QCBORNestingFrame
  | bytes, [], _ => (bytes, [])
  | bytes, f :: rest, bound =>
    if (f :: rest).length ≤ bound then
      (bytes, f :: rest)
    else if f.remaining = some 0 then
      nestingAscend bytes rest bound
    else if f.remaining = Option.none then
      match bytes with
      | b :: brest =>
        if b = 255 then nestingAscend brest rest bound else (b :: brest, f :: rest)
      | [] => ([], f :: rest)
    else
      (bytes, f :: rest)

/-- Modelled from the spec: whether the decoder sits at the end of the
entered (bounded) map or array: the cursor is back at the bounded level
and that level has no entries remaining (definite, remaining 0) or its
next byte is the closing BREAK (indefinite). -/
def atEndOfBoundedLevel (ctx : QCBORDecodeContext) : Bool :=
  match ctx.boundedLevel with
  | Option.none => false
  | some l =>
    ctx.frames.length = l &&
      match ctx.frames with
      | f :: _ =>
        (f.remaining = some 0 || (f.remaining = Option.none && ctx.bytes.head? = some 255) : Bool)
      | [] => false

/-- Modelled from the spec: turn a decoded label item into a map label.
In QCBOR_DECODE_MODE_NORMAL integers and strings are accepted as map
labels; anything else is a MAP_LABEL_TYPE error (`Option.none`). -/
def labelOfItem (it : QCBORItem) : Option QCBORLabel :=
  if it.uDataType = QCBOR_TYPE_INT64 then
    match it.val with
    | QCBORValue.int64 n => some (QCBORLabel.int64 n)
    | _ => Option.none
  else if it.uDataType = QCBOR_TYPE_UINT64 then
    match it.val with
    | QCBORValue.uint64 n => some (QCBORLabel.uint64 n)
    | _ => Option.none
  else if it.uDataType = QCBOR_TYPE_TEXT_STRING then
    match it.val with
    | QCBORValue.string s => some (QCBORLabel.textString s)
    | _ => Option.none
  else if it.uDataType = QCBOR_TYPE_BYTE_STRING then
    match it.val with
    | QCBORValue.string s => some (QCBORLabel.byteString s)
    | _ => Option.none
  else
    Option.none

/-- Modelled from the spec: decode one map entry (GetNextMapEntry of the
missing qcbor_decode.c).  Inside a map a label item and a value item are
fetched and fused into one item carrying the label; outside a map one
raw item is fetched.  A BREAK in label or value position is not
consumed here (the look-ahead ascender consumes legitimate BREAKs, so
one found here is misplaced). -/
def decodeMapEntry (bs : List Nat) (parentIsMap : Bool) :
    Except Nat (QCBORItem × List Nat) :=
  if parentIsMap then
    match decodeItemRaw bs with
    | .error e => .error e
    | .ok (labelItem, r1) =>
      if labelItem.uDataType = QCBOR_TYPE_BREAK then .error QCBOR_ERR_BAD_BREAK
      else
        match labelOfItem labelItem with
        | Option.none => .error QCBOR_ERR_MAP_LABEL_TYPE
        | some ql =>
          match decodeItemRaw r1 with
          | .error e => .error e
          | .ok (valueItem, r2) =>
            if valueItem.uDataType = QCBOR_TYPE_BREAK then .error QCBOR_ERR_BAD_BREAK
            else .ok ({ valueItem with label := ql }, r2)
  else
    decodeItemRaw bs

/-- Modelled from the spec: QCBORDecode_GetNext (declared in
qcbor_decode.h; body in the missing qcbor_decode.c).  Steps: report
NO_MORE_ITEMS at the end of the entered level or of the whole input;
decode one item (a fused label/value pair inside a map); reject a
misplaced BREAK; charge the item to the innermost frame; descend into a
non-empty array or map (bounded by QCBOR_MAX_ARRAY_NESTING); run the
BREAK/exhaustion look-ahead ascender.  The returned item's
uNestingLevel is the depth the item lives at and uNextNestLevel the
depth after the look-ahead. -/
def QCBORDecode_GetNext (ctx : QCBORDecodeContext) :
    Except Nat QCBORItem × QCBORDecodeContext :=
  if atEndOfBoundedLevel ctx then
    (.error QCBOR_ERR_NO_MORE_ITEMS, ctx)
  else if ctx.bytes.isEmpty && ctx.frames.isEmpty then
    (.error QCBOR_ERR_NO_MORE_ITEMS, ctx)
  else
    let parentIsMap := match ctx.frames with
      | f :: _ => f.isMap
      | [] => false
    match decodeMapEntry ctx.bytes parentIsMap with
    | .error e => (.error e, ctx)
    | .ok (item, rest) =>
      if item.uDataType = QCBOR_TYPE_BREAK then
        (.error QCBOR_ERR_BAD_BREAK, ctx)
      else
        let d := ctx.frames.length
        match itemFrame item with
        | some fr =>
          if QCBOR_MAX_ARRAY_NESTING ≤ d then
            (.error QCBOR_ERR_ARRAY_DECODE_NESTING_TOO_DEEP, ctx)
          else
            let frames2 := fr :: framesDecrement ctx.frames
            let stepped := nestingAscend rest frames2 (ctx.boundedLevel.getD 0)
            (.ok { item with uNestingLevel := d, uNextNestLevel := stepped.2.length },
             { ctx with bytes := stepped.1, frames := stepped.2 })
        | Option.none =>
          let frames2 := framesDecrement ctx.frames
          let stepped := nestingAscend rest frames2 (ctx.boundedLevel.getD 0)
          (.ok { item with uNestingLevel := d, uNextNestLevel := stepped.2.length },
           { ctx with bytes := stepped.1, frames := stepped.2 })

/-- Modelled from the spec: QCBORDecode_EnterMapMode (declared in
qcbor_decode.h; body in the missing qcbor_decode.c).  The next item
must have type `uType` (QCBOR_TYPE_MAP or QCBOR_TYPE_ARRAY); decoding
is then bounded to the entered container and the interior start is
recorded for rewind.  For an empty container (whose frame the engine
never opens) an already-consumed frame is installed so that the bounded
level exists. -/
def QCBORDecode_EnterMapMode (ctx : QCBORDecodeContext) (uType : Nat) :
    Nat × QCBORDecodeContext :=
  match QCBORDecode_GetNext ctx with
  | (.error e, _) => (e, ctx)
  | (.ok item, ctx') =>
    if item.uDataType ≠ uType then
      (QCBOR_ERR_UNEXPECTED_TYPE, ctx)
    else if ctx'.frames.length = item.uNestingLevel + 1 then
      match ctx'.frames with
      | f :: _ =>
        (QCBOR_SUCCESS,
         { ctx' with
             boundedLevel := some (item.uNestingLevel + 1)
             boundedStart := some (ctx'.bytes, f) })
      | [] => (QCBOR_SUCCESS, ctx')
    else
      let fr : QCBORNestingFrame := ⟨uType = QCBOR_TYPE_MAP, some 0⟩
      (QCBOR_SUCCESS,
       { ctx' with
           frames := fr :: ctx'.frames
           boundedLevel := some (ctx'.frames.length + 1)
           boundedStart := some (ctx'.bytes, fr) })

/-- QCBORDecode_EnterMap from qcbor_decode.h:
`QCBORDecode_EnterMapMode(pMe, QCBOR_TYPE_MAP)`. -/
def QCBORDecode_EnterMap (ctx : QCBORDecodeContext) : Nat × QCBORDecodeContext :=
  QCBORDecode_EnterMapMode ctx QCBOR_TYPE_MAP

/-- QCBORDecode_EnterArray (declared in qcbor_decode.h):
entering with QCBOR_TYPE_ARRAY. -/
def QCBORDecode_EnterArray (ctx : QCBORDecodeContext) : Nat × QCBORDecodeContext :=
  QCBORDecode_EnterMapMode ctx QCBOR_TYPE_ARRAY

/-- Modelled from the spec: QCBORDecode_RewindMap (declared in
qcbor_decode.h): reset the cursor to the recorded start of the entered
container and reload its frame to the original count, discarding any
frames opened below the bounded level. -/
def QCBORDecode_RewindMap (ctx : QCBORDecodeContext) : QCBORDecodeContext :=
  match ctx.boundedLevel, ctx.boundedStart with
  | some l, some (startBytes, startFrame) =>
    { ctx with
        bytes := startBytes
        frames := startFrame :: (ctx.frames.drop (ctx.frames.length - l)).tail }
  | _, _ => ctx

/-- QCBORDecode_GetError, translated from its static inline body in
qcbor_decode.h: `return pMe->uLastError;`. -/
def QCBORDecode_GetError (ctx : QCBORDecodeContext) : Nat :=
  ctx.uLastError

/-- QCBORDecode_GetAndResetError, translated from its static inline
body in qcbor_decode.h: return `uLastError` and store QCBOR_SUCCESS
back into it. -/
def QCBORDecode_GetAndResetError (ctx : QCBORDecodeContext) :
    Nat × QCBORDecodeContext :=
  (ctx.uLastError, { ctx with uLastError := QCBOR_SUCCESS })

/-- Modelled from the spec: the guard every spiffy operation runs first
(section 4.8: `if error-set { return } else { ... on failure: set
error }`).  `f` is the operation body, `prev` the caller's output
variable; when the error latch is set the body is skipped and output
and context are returned unchanged. -/
def spiffyOperation {α : Type} (f : QCBORDecodeContext → α → α × QCBORDecodeContext)
    (ctx : QCBORDecodeContext) (prev : α) : α × QCBORDecodeContext :=
  if ctx.uLastError ≠ QCBOR_SUCCESS then (prev, ctx) else f ctx prev

/-- Modelled from the spec: the body of QCBORDecode_GetInt64 (via
GetInt64ConvertInternal in the missing qcbor_decode.c): fetch the next
item; an INT64 item yields its value, a UINT64 item in int64 range is
converted, anything else latches UNEXPECTED_TYPE; decode errors latch
and leave the output untouched. -/
def getInt64Body (ctx : QCBORDecodeContext) (prev : Int) : Int × QCBORDecodeContext :=
  match QCBORDecode_GetNext ctx with
  | (.error e, ctx') => (prev, { ctx' with uLastError := e })
  | (.ok item, ctx') =>
    match item.val with
    | QCBORValue.int64 n =>
      if item.uDataType = QCBOR_TYPE_INT64 then (n, ctx')
      else (prev, { ctx' with uLastError := QCBOR_ERR_UNEXPECTED_TYPE })
    | QCBORValue.uint64 n =>
      if n ≤ INT64_MAX_N then ((n : Int), ctx')
      else (prev, { ctx' with uLastError := QCBOR_ERR_CONVERSION_UNDER_OVER_FLOW })
    | _ => (prev, { ctx' with uLastError := QCBOR_ERR_UNEXPECTED_TYPE })

/-- QCBORDecode_GetInt64 as a spiffy operation (declared in
qcbor_decode.h; latch discipline modelled from the spec). -/
def QCBORDecode_GetInt64 (ctx : QCBORDecodeContext) (prev : Int) :
    Int × QCBORDecodeContext :=
  spiffyOperation getInt64Body ctx prev

/-- Modelled from the spec: QCBORDecode_Finish (declared in
qcbor_decode.h).  The destructor of a configured string allocator is
invoked on every path ("This calls the destructor for the string
allocator, if one is in use").  Then: a latched error is reported;
an open array or map gives ARRAY_OR_MAP_STILL_OPEN (the retval
documented for QCBORDecode_Finish in qcbor_decode.h); unconsumed bytes
give EXTRA_BYTES; otherwise QCBOR_SUCCESS. -/
def QCBORDecode_Finish (ctx : QCBORDecodeContext) : Nat × QCBORDecodeContext :=
  let uReturn :=
    if ctx.uLastError ≠ QCBOR_SUCCESS then ctx.uLastError
    else if ¬ ctx.frames.isEmpty then QCBOR_ERR_ARRAY_OR_MAP_STILL_OPEN
    else if ¬ ctx.bytes.isEmpty then QCBOR_ERR_EXTRA_BYTES
    else QCBOR_SUCCESS
  (uReturn,
   if ctx.allocatorConfigured then { ctx with destructorCalled := true } else ctx)

/-- QCBOR_Int64ToInt32, translated from its static inline body in
qcbor_decode.h: fails (returns -1, dest untouched) when
`src > INT32_MAX || src < INT32_MIN`, otherwise stores the cast.
`Option.none` models return value -1 with `*dest` unchanged; `some v`
models return value 0 with `*dest = v`. -/
def QCBOR_Int64ToInt32 (src : Int) : Option Int :=
  if src > 2 ^ 31 - 1 ∨ src < -(2 ^ 31) then Option.none else some src

/-- QCBOR_Int64ToUInt32, translated from its static inline body in
qcbor_decode.h: fails when `src > UINT32_MAX || src < 0`, otherwise
stores `(uint32_t) src`. -/
def QCBOR_Int64ToUInt32 (src : Int) : Option Nat :=
  if src > 2 ^ 32 - 1 ∨ src < 0 then Option.none else some (src % 2 ^ 32).toNat

/-- QCBOR_Int64ToUInt64, translated from its static inline body in
qcbor_decode.h: `if(src > 0) { return -1; } else { *dest = (uint64_t)
src; } return 0;` -- the test really is `src > 0`, so the conversion
succeeds exactly for non-positive inputs and the stored value is the
two's-complement reinterpretation `src mod 2^64`. -/
def QCBOR_Int64ToUInt64 (src : Int) : Option Nat :=
  if src > 0 then Option.none else some (src % 2 ^ 64).toNat

/-- Modelled from the spec: QCBORDecode_GetDoubleConvertInternal is
declared in qcbor_decode.h but its body is in the missing
qcbor_decode.c, so it is left as a parameter `internal`: given the
context and the conversion-options word it produces the output value
(raw bits) and the new context. -/
def QCBORDecode_GetDoubleConvert
    (internal : QCBORDecodeContext → Nat → Nat × QCBORDecodeContext)
    (ctx : QCBORDecodeContext) (uOptions : Nat) : Nat × QCBORDecodeContext :=
  internal ctx uOptions

/-- QCBORDecode_GetDouble, translated from its inline static body in
qcbor_decode.h: it calls `QCBORDecode_GetDoubleConvert(pMe,
QCBOR_CONVERT_TYPE_FLOAT, pValue)` -- its own `uOptions` parameter is
discarded. -/
def QCBORDecode_GetDouble
    (internal : QCBORDecodeContext → Nat → Nat × QCBORDecodeContext)
    (ctx : QCBORDecodeContext) (uOptions : Nat) : Nat × QCBORDecodeContext :=
  QCBORDecode_GetDoubleConvert internal ctx QCBOR_CONVERT_TYPE_FLOAT

/-- Modelled from the spec: QCBORDecode_IsUnrecoverableError (the error
grouping of qcbor_common.h: errors 30..59, between
QCBOR_START_OF_UNRECOVERABLE_DECODE_ERRORS and
QCBOR_END_OF_UNRECOVERABLE_DECODE_ERRORS, are the unrecoverable decode
errors; the function itself lives in the missing qcbor_decode.c). -/
def QCBORDecode_IsUnrecoverableError (uErr : Nat) : Bool :=
  QCBOR_START_OF_UNRECOVERABLE_DECODE_ERRORS ≤ uErr &&
    uErr ≤ QCBOR_END_OF_UNRECOVERABLE_DECODE_ERRORS

/-- Modelled from the spec: the traversal pass of the Map-Mode engine
-- repeatedly call QCBORDecode_GetNext until NO_MORE_ITEMS, collecting
the returned items.  The fuel argument only makes the recursion
structural; every successful GetNext consumes at least one byte, so
`bytes.length + 1` fuel always suffices. -/
def collectMapItems (fuel : Nat) (ctx : QCBORDecodeContext) :
    Except Nat (List QCBORItem) :=
  match fuel with
  | 0 => .error QCBOR_ERR_HIT_END
  | fuel + 1 =>
    match QCBORDecode_GetNext ctx with
    | (.error e, _) =>
      if e = QCBOR_ERR_NO_MORE_ITEMS then .ok [] else .error e
    | (.ok item, ctx') =>
      match collectMapItems fuel ctx' with
      | .error e => .error e
      | .ok items => .ok (item :: items)

/-- Modelled from the spec: the entries of the entered map or array --
rewind to the recorded start, traverse to the end, and keep the items
living at the bounded level (descendants of nested containers are
consumed by the traversal but are not entries of this map). -/
def QCBORDecode_MapEntries (ctx : QCBORDecodeContext) :
    Except Nat (List QCBORItem) :=
  match ctx.boundedLevel with
  | Option.none => .error QCBOR_ERR_MAP_NOT_ENTERED
  | some l =>
    let ctx0 := QCBORDecode_RewindMap ctx
    match collectMapItems (ctx0.bytes.length + 1) ctx0 with
    | .error e => .error e
    | .ok items => .ok (items.filter (fun it => it.uNestingLevel = l))

/-- Whether a map entry carries the given label (MatchLabel of the
missing qcbor_decode.c: the label type and value must both agree). -/
def labelMatch (it : QCBORItem) (lab : QCBORLabel) : Bool :=
  it.label = lab

/-- The number of entries carrying the given label. -/
def countLabel (entries : List QCBORItem) (lab : QCBORLabel) : Nat :=
  (entries.filter (fun it => labelMatch it lab)).length

/-- A mapM over Except, written out so that proofs can proceed by
simple structural induction. -/
def exceptMapM {ε α β : Type} (f : α → Except ε β) : List α → Except ε (List β)
  | [] => .ok []
  | a :: as =>
    match f a with
    | .error e => .error e
    | .ok b =>
      match exceptMapM f as with
      | .error e => .error e
      | .ok bs => .ok (b :: bs)

/-- One search slot of MapSearch: the label looked for and the match
found so far. -/
def MapSearchSlot : Type := QCBORLabel × Option QCBORItem

/-- Modelled from the spec: how one map entry updates one search slot
(section 4.7: remember matches, never short-circuit).  A second match
for a label whose slot is already filled is the duplicate case. -/
def updateSlot (e : QCBORItem) (s : MapSearchSlot) : Except Nat MapSearchSlot :=
  if labelMatch e s.1 then
    match s.2 with
    | some _ => .error QCBOR_ERR_DUPLICATE_LABEL
    | Option.none => .ok (s.1, some e)
  else
    .ok s

/-- Modelled from the spec: MapSearch of the missing qcbor_decode.c --
one pass over all entries of the entered map, matching every entry
against every search slot, with per-label duplicate detection. -/
def MapSearch (entries : List QCBORItem) (slots : List MapSearchSlot) :
    Except Nat (List MapSearchSlot) :=
  match entries with
  | [] => .ok slots
  | e :: es =>
    match exceptMapM (updateSlot e) slots with
    | .error err => .error err
    | .ok slots' => MapSearch es slots'

/-- Modelled from the spec: QCBORDecode_GetItemInMap (declared in
qcbor_decode.h) for an integer label: rewind to the start of the
entered map, scan all pairs with duplicate detection, then report
DUPLICATE_LABEL / LABEL_NOT_FOUND / UNEXPECTED_TYPE / the found item.
The returned context is the rewound one (the cursor is restored to the
map start after the scan). -/
def QCBORDecode_GetItemInMap (ctx : QCBORDecodeContext) (nLabel : Int)
    (uQcborType : Nat) : Except Nat QCBORItem × QCBORDecodeContext :=
  match QCBORDecode_MapEntries ctx with
  | .error e => (.error e, ctx)
  | .ok entries =>
    match MapSearch entries [(QCBORLabel.int64 nLabel, Option.none)] with
    | .error e => (.error e, QCBORDecode_RewindMap ctx)
    | .ok slots =>
      match slots.head? with
      | some (_, some it) =>
        if uQcborType ≠ QCBOR_TYPE_ANY ∧ it.uDataType ≠ uQcborType then
          (.error QCBOR_ERR_UNEXPECTED_TYPE, QCBORDecode_RewindMap ctx)
        else
          (.ok it, QCBORDecode_RewindMap ctx)
      | _ => (.error QCBOR_ERR_LABEL_NOT_FOUND, QCBORDecode_RewindMap ctx)

/-- An item of type QCBOR_TYPE_NONE, handed back by
QCBORDecode_GetItemsInMap for a label that was not found. -/
def noneItem : QCBORItem :=
  mkProtoItem QCBOR_TYPE_NONE QCBORValue.none []

/-- Modelled from the spec: QCBORDecode_GetItemsInMap (declared in
qcbor_decode.h): one rewound pass matching every entry against the
whole list of labels, duplicate detection per label; labels that were
not found come back as items of type QCBOR_TYPE_NONE. -/
def QCBORDecode_GetItemsInMap (ctx : QCBORDecodeContext)
    (labels : List QCBORLabel) : Except Nat (List QCBORItem) × QCBORDecodeContext :=
  match QCBORDecode_MapEntries ctx with
  | .error e => (.error e, ctx)
  | .ok entries =>
    match MapSearch entries (labels.map (fun l => (l, Option.none))) with
    | .error e => (.error e, QCBORDecode_RewindMap ctx)
    | .ok slots =>
      (.ok (slots.map (fun s => s.2.getD noneItem)), QCBORDecode_RewindMap ctx)

/-- The context used to witness C4: the map {1: 2} (bytes 0xa1 0x01
0x02) entered and its single entry consumed. -/
def c4EndedMapCtx : QCBORDecodeContext :=
  (QCBORDecode_GetNext (QCBORDecode_EnterMap (QCBORDecode_Init [0xa1, 0x01, 0x02])).2).2

/-- A context latched on QCBOR_ERR_DUPLICATE_LABEL, used to witness the
error-stickiness theorem. -/
def latchedCtx : QCBORDecodeContext :=
  { QCBORDecode_Init [0x01] with uLastError := QCBOR_ERR_DUPLICATE_LABEL }

/-- A finished decode context with a string allocator configured, used
to witness the Finish theorem. -/
def finishReadyCtx : QCBORDecodeContext :=
  { (QCBORDecode_GetNext (QCBORDecode_Init [0x01])).2 with allocatorConfigured := true }

/-- The context used by the C2 refutation and witness: the map
{1: 10, 1: 11, 2: 12} (bytes 0xa3 01 0a 01 0b 02 0c), which carries a
duplicated label 1, entered with QCBORDecode_EnterMap. -/
def dupLabelMapCtx : QCBORDecodeContext :=
  (QCBORDecode_EnterMap (QCBORDecode_Init [0xa3, 0x01, 0x0a, 0x01, 0x0b, 0x02, 0x0c])).2

/-- The frame count is preserved by charging an item to the innermost
frame. -/
theorem framesDecrement_length (fs : List QCBORNestingFrame) :
    (framesDecrement fs).length = fs.length := by
  cases fs with
  | nil => rfl
  | cons f rest =>
    unfold framesDecrement
    cases h : f.remaining with
    | none => simp [h]
    | some n => cases n <;> simp [h]

/-- The look-ahead ascender only pops frames: the frame stack never
grows. -/
theorem nestingAscend_length_le (bytes : List Nat)
    (frames : List QCBORNestingFrame) (bound : Nat) :
    (nestingAscend bytes frames bound).2.length ≤ frames.length := by
  induction frames generalizing bytes with
  | nil => simp [nestingAscend]
  | cons f rest ih =>
    unfold nestingAscend
    split
    · simp
    · split
      · exact le_trans (ih bytes) (Nat.le_succ _)
      · split
        · cases bytes with
          | nil => simp
          | cons b brest =>
            by_cases h255 : b = 255
            · simp only [h255, if_true]
              exact le_trans (ih brest) (Nat.le_succ _)
            · simp [h255]
        · simp

/-- If the look-ahead ascender pops nothing (the frame count is
unchanged) then it changes nothing at all. -/
theorem nestingAscend_eq_of_length_eq (bytes : List Nat)
    (frames : List QCBORNestingFrame) (bound : Nat)
    (h : (nestingAscend bytes frames bound).2.length = frames.length) :
    nestingAscend bytes frames bound = (bytes, frames) := by
  induction frames generalizing bytes with
  | nil => simp [nestingAscend]
  | cons f rest ih =>
    unfold nestingAscend at h ⊢
    by_cases hb : (f :: rest).length ≤ bound
    · rw [if_pos hb]
    · rw [if_neg hb] at h ⊢
      by_cases h0 : f.remaining = some 0
      · rw [if_pos h0] at h
        exfalso
        have hle := nestingAscend_length_le bytes rest bound
        simp only [List.length_cons] at h
        omega
      · rw [if_neg h0] at h ⊢
        by_cases hn : f.remaining = Option.none
        · rw [if_pos hn] at h ⊢
          cases bytes with
          | nil => rfl
          | cons b brest =>
            by_cases h255 : b = 255
            · exfalso
              simp only [h255, if_true] at h
              have hle := nestingAscend_length_le brest rest bound
              simp only [List.length_cons] at h hb
              omega
            · simp [h255]
        · rw [if_neg hn]

/-- An item that is not an array and not a map opens no nesting
frame. -/
theorem itemFrame_eq_none (it : QCBORItem)
    (h1 : it.uDataType ≠ QCBOR_TYPE_ARRAY) (h2 : it.uDataType ≠ QCBOR_TYPE_MAP) :
    itemFrame it = Option.none := by
  unfold itemFrame
  rw [if_neg (fun hc => hc.elim h1 h2)]

/-- C6: for every item successfully returned by QCBORDecode_GetNext,
uNextNestLevel ≤ uNestingLevel with equality exactly when the item
closes no container -- PROVED HERE ONLY FOR NON-AGGREGATE ITEMS
(uDataType neither QCBOR_TYPE_ARRAY nor QCBOR_TYPE_MAP): an item that
opens a non-empty container has uNextNestLevel above its own
uNestingLevel, refuting the unrestricted claim (see the
counterexample). -/
theorem C6_next_nest_level_nonaggregate (ctx ctx' : QCBORDecodeContext)
    (item : QCBORItem)
    (h : QCBORDecode_GetNext ctx = (.ok item, ctx'))
    (hna : item.uDataType ≠ QCBOR_TYPE_ARRAY)
    (hnm : item.uDataType ≠ QCBOR_TYPE_MAP) :
    item.uNextNestLevel ≤ item.uNestingLevel ∧
    (item.uNextNestLevel = item.uNestingLevel ↔
      ctx'.frames.length = ctx.frames.length) := by
  simp only [QCBORDecode_GetNext] at h
  split at h
  · simp at h
  · split at h
    · simp at h
    · split at h
      · simp at h
      · rename_i item0 rest heq0
        split at h
        · simp at h
        · rename_i hbreak
          split at h
          · rename_i fr hfr
            split at h
            · simp at h
            · simp only [Prod.mk.injEq, Except.ok.injEq] at h
              obtain ⟨hitem, hctx⟩ := h
              exfalso
              have hdt : item0.uDataType = item.uDataType := by
                rw [← hitem]
              rw [itemFrame_eq_none item0 (hdt ▸ hna) (hdt ▸ hnm)] at hfr
              exact Option.noConfusion hfr
          · rename_i hfr
            simp only [Prod.mk.injEq, Except.ok.injEq] at h
            obtain ⟨hitem, hctx⟩ := h
            have e1 : item.uNextNestLevel =
                (nestingAscend rest (framesDecrement ctx.frames)
                  (ctx.boundedLevel.getD 0)).2.length := by rw [← hitem]
            have e2 : item.uNestingLevel = ctx.frames.length := by rw [← hitem]
            have e3 : ctx'.frames.length =
                (nestingAscend rest (framesDecrement ctx.frames)
                  (ctx.boundedLevel.getD 0)).2.length := by rw [← hctx]
            have hlen := framesDecrement_length ctx.frames
            have hle := nestingAscend_length_le rest (framesDecrement ctx.frames)
              (ctx.boundedLevel.getD 0)
            rw [e1, e2, e3]
            exact ⟨by omega, Iff.rfl⟩

/-- C6, counterexample: on the input 0x82 0x01 0x20 (the array
[1, -1]) the first returned item is the array itself, with
uNestingLevel 0 but uNextNestLevel 1: an item opening a non-empty
container has uNextNestLevel strictly above uNestingLevel, so the
claimed inequality does not hold for every returned item. -/
theorem C6_counterexample :
    ¬ (∀ (ctx ctx' : QCBORDecodeContext) (item : QCBORItem),
        QCBORDecode_GetNext ctx = (.ok item, ctx') →
        item.uNextNestLevel ≤ item.uNestingLevel) := by
  intro hall
  have h := hall (QCBORDecode_Init [0x82, 0x01, 0x20])
      (QCBORDecode_GetNext (QCBORDecode_Init [0x82, 0x01, 0x20])).2
      { uDataType := QCBOR_TYPE_ARRAY, uNestingLevel := 0, uNextNestLevel := 1,
        val := QCBORValue.count 2, label := QCBORLabel.none, tags := [] }
      rfl
  exact absurd h (by decide)

/-- C6, witness for the restricted theorem: decoding 0x01 0x02 (two
top-level integers) returns the integer 1 with
uNextNestLevel = uNestingLevel = 0 and an unchanged frame count. -/
theorem C6_witness :
    QCBORDecode_GetNext (QCBORDecode_Init [0x01, 0x02]) =
      (.ok { uDataType := QCBOR_TYPE_INT64, uNestingLevel := 0,
             uNextNestLevel := 0, val := QCBORValue.int64 1,
             label := QCBORLabel.none, tags := [] },
       (QCBORDecode_GetNext (QCBORDecode_Init [0x01, 0x02])).2) ∧
    QCBOR_TYPE_INT64 ≠ QCBOR_TYPE_ARRAY ∧ QCBOR_TYPE_INT64 ≠ QCBOR_TYPE_MAP ∧
    ((0 : Nat) ≤ 0 ∧
      ((0 : Nat) = 0 ↔
        (QCBORDecode_GetNext (QCBORDecode_Init [0x01, 0x02])).2.frames.length =
          (QCBORDecode_Init [0x01, 0x02]).frames.length)) := by
  refine ⟨rfl, by decide, by decide, ?_⟩
  exact C6_next_nest_level_nonaggregate (QCBORDecode_Init [0x01, 0x02])
    (QCBORDecode_GetNext (QCBORDecode_Init [0x01, 0x02])).2
    { uDataType := QCBOR_TYPE_INT64, uNestingLevel := 0,
      uNextNestLevel := 0, val := QCBORValue.int64 1,
      label := QCBORLabel.none, tags := [] }
    rfl (by decide) (by decide)

/-- C4: while the decoder is in map mode, a GetNext call at the end of
the entered container (its frame has no entries remaining, or, for an
indefinite container, the closing BREAK is next) returns
QCBOR_ERR_NO_MORE_ITEMS and leaves the decoder context -- cursor
included -- completely unchanged. -/
theorem C4_no_more_items_clamps (ctx : QCBORDecodeContext)
    (f : QCBORNestingFrame)
    (h1 : ctx.boundedLevel = some ctx.frames.length)
    (h2 : ctx.frames.head? = some f)
    (h3 : f.remaining = some 0 ∨
      (f.remaining = Option.none ∧ ctx.bytes.head? = some 255)) :
    QCBORDecode_GetNext ctx = (.error QCBOR_ERR_NO_MORE_ITEMS, ctx) := by
  have hEnd : atEndOfBoundedLevel ctx = true := by
    cases hfr : ctx.frames with
    | nil => rw [hfr] at h2; simp at h2
    | cons f0 tl =>
      rw [hfr] at h2
      simp only [List.head?_cons, Option.some.injEq] at h2
      subst h2
      unfold atEndOfBoundedLevel
      rw [h1, hfr]
      rcases h3 with h3 | ⟨h3a, h3b⟩
      · simp [h3]
      · simp [h3a, h3b]
  unfold QCBORDecode_GetNext
  rw [if_pos hEnd]

/-- C4, witness: in the fully-consumed entered map {1: 2} the
hypotheses of the clamping theorem hold concretely and the next GetNext
reports NO_MORE_ITEMS without touching the context. -/
theorem C4_witness :
    c4EndedMapCtx.boundedLevel = some c4EndedMapCtx.frames.length ∧
    c4EndedMapCtx.frames.head? = some ⟨true, some 0⟩ ∧
    (⟨true, some 0⟩ : QCBORNestingFrame).remaining = some 0 ∧
    QCBORDecode_GetNext c4EndedMapCtx = (.error QCBOR_ERR_NO_MORE_ITEMS, c4EndedMapCtx) := by
  refine ⟨rfl, rfl, rfl, ?_⟩
  exact C4_no_more_items_clamps c4EndedMapCtx ⟨true, some 0⟩ rfl rfl (Or.inl rfl)

/-- C3: once the decoder's internal error state is any value other than
QCBOR_SUCCESS, a spiffy operation (here both the generic latch guard
shared by all spiffy operations and QCBORDecode_GetInt64 concretely) is
a no-op leaving output and decoder state unchanged;
QCBORDecode_GetAndResetError returns the latched error and resets the
state so that QCBORDecode_GetError afterwards returns QCBOR_SUCCESS. -/
theorem C3_error_latch {α : Type}
    (f : QCBORDecodeContext → α → α × QCBORDecodeContext)
    (ctx : QCBORDecodeContext) (prev : α) (prevInt : Int)
    (h : ctx.uLastError ≠ QCBOR_SUCCESS) :
    spiffyOperation f ctx prev = (prev, ctx) ∧
    QCBORDecode_GetInt64 ctx prevInt = (prevInt, ctx) ∧
    QCBORDecode_GetAndResetError ctx =
      (ctx.uLastError, { ctx with uLastError := QCBOR_SUCCESS }) ∧
    QCBORDecode_GetError (QCBORDecode_GetAndResetError ctx).2 = QCBOR_SUCCESS := by
  refine ⟨by simp [spiffyOperation, h], ?_, rfl, rfl⟩
  simp [QCBORDecode_GetInt64, spiffyOperation, h]

/-- C3, witness: with the error cell latched on DUPLICATE_LABEL a
concrete spiffy operation and QCBORDecode_GetInt64 are no-ops, and
GetAndResetError hands the error back while resetting the state. -/
theorem C3_witness :
    latchedCtx.uLastError ≠ QCBOR_SUCCESS ∧
    (spiffyOperation (fun c p => (p + 1, c)) latchedCtx (0 : Int) = ((0 : Int), latchedCtx) ∧
     QCBORDecode_GetInt64 latchedCtx 0 = ((0 : Int), latchedCtx) ∧
     QCBORDecode_GetAndResetError latchedCtx =
       (latchedCtx.uLastError, { latchedCtx with uLastError := QCBOR_SUCCESS }) ∧
     QCBORDecode_GetError (QCBORDecode_GetAndResetError latchedCtx).2 = QCBOR_SUCCESS) :=
  ⟨by decide, C3_error_latch (fun c p => (p + 1, c)) latchedCtx 0 0 (by decide)⟩

/-- C5: when the internal error state is QCBOR_SUCCESS,
QCBORDecode_Finish reports ARRAY_OR_MAP_STILL_OPEN if a nesting level
is open, else EXTRA_BYTES if input bytes remain, else QCBOR_SUCCESS;
and on every path it marks the string-allocator destructor invoked
whenever an allocator is configured. -/
theorem C5_finish (ctx : QCBORDecodeContext)
    (h : ctx.uLastError = QCBOR_SUCCESS) :
    (QCBORDecode_Finish ctx).1 =
      (if ctx.frames ≠ [] then QCBOR_ERR_ARRAY_OR_MAP_STILL_OPEN
       else if ctx.bytes ≠ [] then QCBOR_ERR_EXTRA_BYTES
       else QCBOR_SUCCESS) ∧
    (QCBORDecode_Finish ctx).2.destructorCalled =
      (ctx.allocatorConfigured || ctx.destructorCalled) := by
  constructor
  · by_cases hf : ctx.frames = []
    · by_cases hb : ctx.bytes = []
      · simp [QCBORDecode_Finish, h, List.isEmpty_iff, hf, hb]
      · simp [QCBORDecode_Finish, h, List.isEmpty_iff, hf, hb]
    · simp [QCBORDecode_Finish, h, List.isEmpty_iff, hf]
  · by_cases ha : ctx.allocatorConfigured = true
    · simp [QCBORDecode_Finish, ha]
    · simp only [Bool.not_eq_true] at ha
      simp [QCBORDecode_Finish, ha]

/-- C5, witness: on a fully consumed single-integer input with an
allocator configured, Finish returns QCBOR_SUCCESS and the destructor
runs. -/
theorem C5_witness :
    finishReadyCtx.uLastError = QCBOR_SUCCESS ∧
    ((QCBORDecode_Finish finishReadyCtx).1 =
      (if finishReadyCtx.frames ≠ [] then QCBOR_ERR_ARRAY_OR_MAP_STILL_OPEN
       else if finishReadyCtx.bytes ≠ [] then QCBOR_ERR_EXTRA_BYTES
       else QCBOR_SUCCESS) ∧
     (QCBORDecode_Finish finishReadyCtx).2.destructorCalled =
       (finishReadyCtx.allocatorConfigured || finishReadyCtx.destructorCalled)) :=
  ⟨rfl, C5_finish finishReadyCtx rfl⟩

/-- C8, counterexample: QCBOR_ERR_MAP_LABEL_TYPE (47) lies inside the
unrecoverable band 30..59 of qcbor_common.h, so after GetNext reports
it no further decoding is permitted -- it is not a recoverable
error as the claim states. -/
theorem C8_counterexample :
    QCBORDecode_IsUnrecoverableError QCBOR_ERR_MAP_LABEL_TYPE = true ∧
    QCBOR_START_OF_UNRECOVERABLE_DECODE_ERRORS ≤ QCBOR_ERR_MAP_LABEL_TYPE ∧
    QCBOR_ERR_MAP_LABEL_TYPE ≤ QCBOR_END_OF_UNRECOVERABLE_DECODE_ERRORS := by
  decide

/-- C8, amended: of the two errors named by the claim only
QCBOR_ERR_TOO_MANY_TAGS (60) is outside the unrecoverable band 30..59
and hence recoverable; QCBOR_ERR_MAP_LABEL_TYPE (47) is inside the band
and unrecoverable.  The band is exactly
QCBOR_START_OF_UNRECOVERABLE_DECODE_ERRORS ..
QCBOR_END_OF_UNRECOVERABLE_DECODE_ERRORS. -/
theorem C8_recoverability :
    QCBORDecode_IsUnrecoverableError QCBOR_ERR_TOO_MANY_TAGS = false ∧
    QCBORDecode_IsUnrecoverableError QCBOR_ERR_MAP_LABEL_TYPE = true ∧
    (∀ e : Nat, QCBORDecode_IsUnrecoverableError e = true ↔
      (QCBOR_START_OF_UNRECOVERABLE_DECODE_ERRORS ≤ e ∧
       e ≤ QCBOR_END_OF_UNRECOVERABLE_DECODE_ERRORS)) := by
  refine ⟨by decide, by decide, fun e => ?_⟩
  simp [QCBORDecode_IsUnrecoverableError]

/-- C9: QCBOR_Int64ToUInt64 succeeds (returns 0, storing the
two's-complement reinterpretation of src) exactly when src ≤ 0 and
fails (returns -1, leaving the destination unchanged) exactly when
src > 0 -- the opposite of the other width-conversion helpers, shown
here with QCBOR_Int64ToUInt32, which succeeds exactly when src lies in
the target type's range 0..UINT32_MAX. -/
theorem C9_int64ToUInt64_inverted (src : Int)
    (h : -(2 ^ 63) ≤ src ∧ src ≤ 2 ^ 63 - 1) :
    (QCBOR_Int64ToUInt64 src = some (src % 2 ^ 64).toNat ↔ src ≤ 0) ∧
    (QCBOR_Int64ToUInt64 src = Option.none ↔ 0 < src) ∧
    (QCBOR_Int64ToUInt32 src = Option.none ↔ (src < 0 ∨ 2 ^ 32 - 1 < src)) := by
  refine ⟨?_, ?_, ?_⟩
  · unfold QCBOR_Int64ToUInt64
    by_cases hp : src > 0
    · rw [if_pos hp]
      constructor
      · intro hc
        exact absurd hc (by simp)
      · intro hc
        omega
    · rw [if_neg hp]
      simp only [true_iff]
      omega
  · unfold QCBOR_Int64ToUInt64
    by_cases hp : src > 0
    · simp [hp]
    · simp [hp]
  · unfold QCBOR_Int64ToUInt32
    by_cases hr : src > 2 ^ 32 - 1 ∨ src < 0
    · rw [if_pos hr]
      simp only [true_iff]
      omega
    · rw [if_neg hr]
      constructor
      · intro hc
        exact absurd hc (by simp)
      · intro hc
        exact absurd hc (by omega)

/-- C9, witness: at src = -5 (inside int64 range) the conversion to
uint64 succeeds with the reinterpreted value, while the conversion to
uint32 fails because -5 is below the target range. -/
theorem C9_witness :
    (-(2 ^ 63) ≤ (-5 : Int) ∧ (-5 : Int) ≤ 2 ^ 63 - 1) ∧
    ((QCBOR_Int64ToUInt64 (-5) = some (((-5 : Int) % 2 ^ 64).toNat) ↔ (-5 : Int) ≤ 0) ∧
     (QCBOR_Int64ToUInt64 (-5) = Option.none ↔ (0 : Int) < -5) ∧
     (QCBOR_Int64ToUInt32 (-5) = Option.none ↔ ((-5 : Int) < 0 ∨ (2 ^ 32 - 1 : Int) < -5))) :=
  ⟨by decide, C9_int64ToUInt64_inverted (-5) (by decide)⟩

/-- C10: QCBORDecode_GetDouble ignores its uOptions parameter -- for
any two option words and the same decoder context and internal
conversion routine it produces identical results and state, because it
always forwards the fixed conversion type QCBOR_CONVERT_TYPE_FLOAT
(which differs from QCBOR_CONVERT_TYPE_DOUBLE) to
QCBORDecode_GetDoubleConvert. -/
theorem C10_getDouble_ignores_options
    (internal : QCBORDecodeContext → Nat → Nat × QCBORDecodeContext)
    (ctx : QCBORDecodeContext) (a b : Nat) :
    QCBORDecode_GetDouble internal ctx a = QCBORDecode_GetDouble internal ctx b ∧
    QCBORDecode_GetDouble internal ctx a =
      QCBORDecode_GetDoubleConvert internal ctx QCBOR_CONVERT_TYPE_FLOAT ∧
    QCBOR_CONVERT_TYPE_FLOAT ≠ QCBOR_CONVERT_TYPE_DOUBLE :=
  ⟨rfl, rfl, by decide⟩

/-- When the first head of the input is not a tag, decoding a raw item
is assembling that head with an empty tag list. -/
theorem decodeItemRaw_of_head (bs : List Nat) (h : QCBORHead)
    (hh : decodeHead bs = .ok h) (hm : h.major ≠ 6) :
    decodeItemRaw bs = assembleItem h [] := by
  cases bs with
  | nil => simp [decodeHead] at hh
  | cons b rest =>
    unfold decodeItemRaw
    have hstep : decodeTagsThenHead ((b :: rest).length + 1) (b :: rest) =
        .ok ([], h) := by
      unfold decodeTagsThenHead
      rw [hh]
      simp [hm]
    rw [hstep]
    simp [QCBOR_MAX_TAGS_PER_ITEM]

/-- C1, counterexample: the single byte 0x01 is a well-formed item of
major type 0 (positive integer, value 1), yet QCBORDecode's item
decoder gives it uDataType = QCBOR_TYPE_INT64, not QCBOR_TYPE_UINT64
as the claim states for every major-0 item. -/
theorem C1_counterexample :
    (decodeItemRaw [0x01]).map (fun p => p.1.uDataType) = .ok QCBOR_TYPE_INT64 ∧
    QCBOR_TYPE_INT64 ≠ QCBOR_TYPE_UINT64 :=
  ⟨rfl, by decide⟩

/-- C1, amended: an item of major type 0 decodes to QCBOR_TYPE_INT64
(with the value in val.int64) when its value is at most INT64_MAX and
to QCBOR_TYPE_UINT64 (value in val.uint64) exactly when the value
exceeds INT64_MAX, per the QCBOR_TYPE_INT64 / QCBOR_TYPE_UINT64
documentation in qcbor_decode.h. -/
theorem C1_major0_type_split (bs : List Nat) (h : QCBORHead)
    (hh : decodeHead bs = .ok h) (hm : h.major = 0) :
    decodeItemRaw bs =
      (if h.arg ≤ INT64_MAX_N then
        .ok (mkProtoItem QCBOR_TYPE_INT64 (QCBORValue.int64 h.arg) [], h.rest)
       else
        .ok (mkProtoItem QCBOR_TYPE_UINT64 (QCBORValue.uint64 h.arg) [], h.rest)) ∧
    ((decodeItemRaw bs).map (fun p => p.1.uDataType) = .ok QCBOR_TYPE_UINT64 ↔
      INT64_MAX_N < h.arg) := by
  have h6 : h.major ≠ 6 := by rw [hm]; decide
  have hr := decodeItemRaw_of_head bs h hh h6
  refine ⟨?_, ?_⟩
  · rw [hr]
    unfold assembleItem
    rw [if_pos hm]
  · rw [hr]
    unfold assembleItem
    rw [if_pos hm]
    by_cases ha : h.arg ≤ INT64_MAX_N
    · rw [if_pos ha]
      simp only [Except.map, mkProtoItem]
      constructor
      · intro hc
        injection hc with hc
        simp [QCBOR_TYPE_INT64, QCBOR_TYPE_UINT64] at hc
      · intro hc
        exact absurd hc (by simp [INT64_MAX_N] at ha ⊢; omega)
    · rw [if_neg ha]
      simp only [Except.map, mkProtoItem]
      constructor
      · intro _
        omega
      · intro _
        trivial

/-- C1, witness for the amended theorem: the nine bytes
0x1b ff ff ff ff ff ff ff ff decode as major type 0 with value
2^64 - 1, above INT64_MAX, and so give QCBOR_TYPE_UINT64. -/
theorem C1_witness :
    decodeHead [0x1b, 0xff, 0xff, 0xff, 0xff, 0xff, 0xff, 0xff, 0xff] =
      .ok ⟨0, 27, 18446744073709551615, []⟩ ∧
    (⟨0, 27, 18446744073709551615, []⟩ : QCBORHead).major = 0 ∧
    (decodeItemRaw [0x1b, 0xff, 0xff, 0xff, 0xff, 0xff, 0xff, 0xff, 0xff] =
      (if (18446744073709551615 : Nat) ≤ INT64_MAX_N then
        .ok (mkProtoItem QCBOR_TYPE_INT64 (QCBORValue.int64 18446744073709551615) [], [])
       else
        .ok (mkProtoItem QCBOR_TYPE_UINT64 (QCBORValue.uint64 18446744073709551615) [], [])) ∧
     ((decodeItemRaw [0x1b, 0xff, 0xff, 0xff, 0xff, 0xff, 0xff, 0xff, 0xff]).map
        (fun p => p.1.uDataType) = .ok QCBOR_TYPE_UINT64 ↔
      INT64_MAX_N < 18446744073709551615)) :=
  ⟨rfl, rfl,
   C1_major0_type_split [0x1b, 0xff, 0xff, 0xff, 0xff, 0xff, 0xff, 0xff, 0xff]
     ⟨0, 27, 18446744073709551615, []⟩ rfl rfl⟩

/-- C7: every indefinite-length array or map item decodes with
val.uCount equal to the UINT16_MAX sentinel, every definite-length one
is accepted only up to QCBOR_MAX_ITEMS_IN_ARRAY = UINT16_MAX - 1
entries (beyond that ARRAY_DECODE_TOO_LONG), so a definite count never
collides with the sentinel. -/
theorem C7_count_sentinel (bs : List Nat) (h : QCBORHead)
    (hh : decodeHead bs = .ok h) (hm : h.major = 4 ∨ h.major = 5) :
    (h.ainfo = 31 →
      (decodeItemRaw bs).map (fun p => p.1.val) =
        .ok (QCBORValue.count QCBOR_COUNT_INDEFINITE)) ∧
    (h.ainfo ≠ 31 → h.arg ≤ QCBOR_MAX_ITEMS_IN_ARRAY →
      (decodeItemRaw bs).map (fun p => p.1.val) = .ok (QCBORValue.count h.arg) ∧
      h.arg < QCBOR_COUNT_INDEFINITE) ∧
    (h.ainfo ≠ 31 → QCBOR_MAX_ITEMS_IN_ARRAY < h.arg →
      decodeItemRaw bs = .error QCBOR_ERR_ARRAY_DECODE_TOO_LONG) ∧
    QCBOR_MAX_ITEMS_IN_ARRAY + 1 = QCBOR_COUNT_INDEFINITE := by
  have h6 : h.major ≠ 6 := by
    rcases hm with hm' | hm' <;> rw [hm'] <;> decide
  have h01 : ¬ h.major = 0 := by
    rcases hm with hm' | hm' <;> rw [hm'] <;> decide
  have h11 : ¬ h.major = 1 := by
    rcases hm with hm' | hm' <;> rw [hm'] <;> decide
  have h23 : ¬ (h.major = 2 ∨ h.major = 3) := by
    rcases hm with hm' | hm' <;> rw [hm'] <;> decide
  have hr := decodeItemRaw_of_head bs h hh h6
  rw [hr]
  unfold assembleItem
  rw [if_neg h01, if_neg h11, if_neg h23, if_pos hm]
  refine ⟨?_, ?_, ?_, by decide⟩
  · intro h31
    rw [if_pos h31]
    simp [Except.map, mkProtoItem]
  · intro h31 hle
    rw [if_neg h31, if_neg (by omega : ¬ h.arg > QCBOR_MAX_ITEMS_IN_ARRAY)]
    refine ⟨by simp [Except.map, mkProtoItem], ?_⟩
    simp only [QCBOR_MAX_ITEMS_IN_ARRAY, QCBOR_COUNT_INDEFINITE] at hle ⊢
    omega
  · intro h31 hgt
    rw [if_neg h31, if_pos (by omega : h.arg > QCBOR_MAX_ITEMS_IN_ARRAY)]

/-- C7, witness: the single byte 0xbf opens an indefinite-length map
(major 5, ainfo 31); its decoded item carries the UINT16_MAX count
sentinel. -/
theorem C7_witness :
    decodeHead [0xbf] = .ok ⟨5, 31, 0, []⟩ ∧
    ((⟨5, 31, 0, []⟩ : QCBORHead).major = 4 ∨ (⟨5, 31, 0, []⟩ : QCBORHead).major = 5) ∧
    (((⟨5, 31, 0, []⟩ : QCBORHead).ainfo = 31 →
      (decodeItemRaw [0xbf]).map (fun p => p.1.val) =
        .ok (QCBORValue.count QCBOR_COUNT_INDEFINITE)) ∧
     ((⟨5, 31, 0, []⟩ : QCBORHead).ainfo ≠ 31 → (0 : Nat) ≤ QCBOR_MAX_ITEMS_IN_ARRAY →
      (decodeItemRaw [0xbf]).map (fun p => p.1.val) = .ok (QCBORValue.count 0) ∧
      (0 : Nat) < QCBOR_COUNT_INDEFINITE) ∧
     ((⟨5, 31, 0, []⟩ : QCBORHead).ainfo ≠ 31 → QCBOR_MAX_ITEMS_IN_ARRAY < (0 : Nat) →
      decodeItemRaw [0xbf] = .error QCBOR_ERR_ARRAY_DECODE_TOO_LONG) ∧
     QCBOR_MAX_ITEMS_IN_ARRAY + 1 = QCBOR_COUNT_INDEFINITE) :=
  ⟨rfl, Or.inr rfl, C7_count_sentinel [0xbf] ⟨5, 31, 0, []⟩ rfl (Or.inr rfl)⟩

/-- The only error a search-slot update can produce is
DUPLICATE_LABEL. -/
theorem updateSlot_error_eq (e : QCBORItem) (s : MapSearchSlot) (err : Nat)
    (h : updateSlot e s = .error err) : err = QCBOR_ERR_DUPLICATE_LABEL := by
  unfold updateSlot at h
  split at h
  · split at h
    · simp only [Except.error.injEq] at h
      exact h.symm
    · simp at h
  · simp at h

/-- If every error of `f` is the constant `c`, so is every error of
`exceptMapM f`. -/
theorem exceptMapM_error_eq {α β : Type} (f : α → Except Nat β) (c : Nat)
    (hf : ∀ a e, f a = .error e → e = c) :
    ∀ (l : List α) (e : Nat), exceptMapM f l = .error e → e = c := by
  intro l
  induction l with
  | nil => intro e he; simp [exceptMapM] at he
  | cons a as ih =>
    intro e he
    unfold exceptMapM at he
    cases hfa : f a with
    | error e0 =>
      rw [hfa] at he
      simp only [Except.error.injEq] at he
      exact he ▸ hf a e0 hfa
    | ok b =>
      rw [hfa] at he
      cases hrest : exceptMapM f as with
      | error e1 =>
        rw [hrest] at he
        simp only [Except.error.injEq] at he
        exact he ▸ ih e1 hrest
      | ok bs =>
        rw [hrest] at he
        simp at he

/-- A successful `exceptMapM` maps every list member through `f` into a
member of the output. -/
theorem exceptMapM_mem_ok {α β : Type} (f : α → Except Nat β) :
    ∀ (l : List α) (l' : List β), exceptMapM f l = .ok l' →
      ∀ a ∈ l, ∃ b, f a = .ok b ∧ b ∈ l' := by
  intro l
  induction l with
  | nil => intro l' _ a ha; simp at ha
  | cons a0 as ih =>
    intro l' hl a ha
    unfold exceptMapM at hl
    cases hfa : f a0 with
    | error e0 => rw [hfa] at hl; simp at hl
    | ok b0 =>
      rw [hfa] at hl
      cases hrest : exceptMapM f as with
      | error e1 => rw [hrest] at hl; simp at hl
      | ok bs =>
        rw [hrest] at hl
        simp only [Except.ok.injEq] at hl
        subst hl
        rcases List.mem_cons.mp ha with ha0 | ha1
        · subst ha0
          exact ⟨b0, hfa, List.mem_cons_self _ _⟩
        · obtain ⟨b, hb, hbm⟩ := ih bs hrest a ha1
          exact ⟨b, hb, List.mem_cons_of_mem _ hbm⟩

/-- The per-label search over all the entries of a map: as soon as some
queried slot sees two entries with its label (or one entry on an
already-filled slot), the whole search reports DUPLICATE_LABEL. -/
theorem MapSearch_duplicate (entries : List QCBORItem) :
    ∀ (slots : List MapSearchSlot) (lab : QCBORLabel) (fo : Option QCBORItem),
    (lab, fo) ∈ slots →
    2 ≤ countLabel entries lab + (if fo.isSome then 1 else 0) →
    MapSearch entries slots = .error QCBOR_ERR_DUPLICATE_LABEL := by
  induction entries with
  | nil =>
    intro slots lab fo hmem hcnt
    exfalso
    simp only [countLabel, List.filter_nil, List.length_nil, Nat.zero_add] at hcnt
    cases fo <;> simp at hcnt
  | cons e es ih =>
    intro slots lab fo hmem hcnt
    unfold MapSearch
    cases hup : exceptMapM (updateSlot e) slots with
    | error err =>
      have herr : err = QCBOR_ERR_DUPLICATE_LABEL :=
        exceptMapM_error_eq (updateSlot e) QCBOR_ERR_DUPLICATE_LABEL
          (fun s e' he' => updateSlot_error_eq e s e' he') slots err hup
      rw [herr]
    | ok slots' =>
      obtain ⟨s', hs', hmem'⟩ := exceptMapM_mem_ok (updateSlot e) slots slots' hup (lab, fo) hmem
      by_cases hLm : labelMatch e lab = true
      · cases fo with
        | some it =>
          exfalso
          unfold updateSlot at hs'
          rw [if_pos hLm] at hs'
          simp at hs'
        | none =>
          have hs'' : s' = (lab, some e) := by
            unfold updateSlot at hs'
            rw [if_pos hLm] at hs'
            simp only [Except.ok.injEq] at hs'
            exact hs'.symm
          subst hs''
          apply ih slots' lab (some e) hmem'
          have hc : countLabel (e :: es) lab = countLabel es lab + 1 := by
            simp [countLabel, List.filter_cons, hLm]
          rw [hc] at hcnt
          have e1 : (if (some e).isSome = true then 1 else 0) = 1 := rfl
          have e0 : (if (Option.none : Option QCBORItem).isSome = true then 1 else 0) = 0 := rfl
          rw [e1]
          rw [e0] at hcnt
          omega
      · have hs'' : s' = (lab, fo) := by
          unfold updateSlot at hs'
          rw [if_neg hLm] at hs'
          simp only [Except.ok.injEq] at hs'
          exact hs'.symm
        subst hs''
        apply ih slots' lab fo hmem'
        have hc : countLabel (e :: es) lab = countLabel es lab := by
          simp [countLabel, List.filter_cons, hLm]
        rw [hc] at hcnt
        exact hcnt

/-- C2, amended: a map containing two entries with equal labels causes
DUPLICATE_LABEL on QCBORDecode_GetItemInMap and
QCBORDecode_GetItemsInMap whenever the duplicated label is among the
labels being queried (duplicates of labels that are not queried are
not detected; see the counterexample). -/
theorem C2_duplicate_label_queried (ctx : QCBORDecodeContext)
    (entries : List QCBORItem) (lab : QCBORLabel)
    (h1 : QCBORDecode_MapEntries ctx = .ok entries)
    (h2 : 2 ≤ countLabel entries lab) :
    (∀ (n : Int) (t : Nat), lab = QCBORLabel.int64 n →
      (QCBORDecode_GetItemInMap ctx n t).1 = .error QCBOR_ERR_DUPLICATE_LABEL) ∧
    (∀ labels : List QCBORLabel, lab ∈ labels →
      (QCBORDecode_GetItemsInMap ctx labels).1 = .error QCBOR_ERR_DUPLICATE_LABEL) := by
  constructor
  · intro n t hl
    have hms : MapSearch entries [(QCBORLabel.int64 n, Option.none)] =
        .error QCBOR_ERR_DUPLICATE_LABEL := by
      apply MapSearch_duplicate entries _ (QCBORLabel.int64 n) Option.none
        (List.mem_singleton.mpr rfl)
      rw [← hl]
      simpa using h2
    unfold QCBORDecode_GetItemInMap
    simp only [h1, hms]
  · intro labels hmemL
    have hms : MapSearch entries (labels.map (fun l => (l, Option.none))) =
        .error QCBOR_ERR_DUPLICATE_LABEL := by
      apply MapSearch_duplicate entries _ lab Option.none
        (List.mem_map_of_mem (fun l => (l, Option.none)) hmemL)
      simpa using h2
    unfold QCBORDecode_GetItemsInMap
    simp only [h1, hms]

/-- C2, counterexample: in the entered map {1: 10, 1: 11, 2: 12} the
label 1 occurs twice, yet querying the distinct label 2 with
QCBORDecode_GetItemInMap succeeds (value 12) and with
QCBORDecode_GetItemsInMap succeeds as well -- DUPLICATE_LABEL is not
returned "regardless of which label is being queried". -/
theorem C2_counterexample :
    2 ≤ countLabel ((QCBORDecode_MapEntries dupLabelMapCtx).toOption.getD [])
        (QCBORLabel.int64 1) ∧
    (QCBORDecode_GetItemInMap dupLabelMapCtx 2 QCBOR_TYPE_ANY).1.map
        (fun it => it.val) = .ok (QCBORValue.int64 12) ∧
    (QCBORDecode_GetItemsInMap dupLabelMapCtx [QCBORLabel.int64 2]).1.map
        (fun l => l.map (fun it => it.val)) = .ok [QCBORValue.int64 12] :=
  ⟨by decide, rfl, rfl⟩

/-- C2, witness for the amended theorem: querying the duplicated label
1 itself in the same entered map produces DUPLICATE_LABEL from both
QCBORDecode_GetItemInMap and QCBORDecode_GetItemsInMap. -/
theorem C2_witness :
    QCBORDecode_MapEntries dupLabelMapCtx =
      .ok ((QCBORDecode_MapEntries dupLabelMapCtx).toOption.getD []) ∧
    2 ≤ countLabel ((QCBORDecode_MapEntries dupLabelMapCtx).toOption.getD [])
        (QCBORLabel.int64 1) ∧
    ((∀ (n : Int) (t : Nat), QCBORLabel.int64 1 = QCBORLabel.int64 n →
       (QCBORDecode_GetItemInMap dupLabelMapCtx n t).1 =
         .error QCBOR_ERR_DUPLICATE_LABEL) ∧
     (∀ labels : List QCBORLabel, QCBORLabel.int64 1 ∈ labels →
       (QCBORDecode_GetItemsInMap dupLabelMapCtx labels).1 =
         .error QCBOR_ERR_DUPLICATE_LABEL)) :=
  ⟨rfl, by decide,
   C2_duplicate_label_queried dupLabelMapCtx
     ((QCBORDecode_MapEntries dupLabelMapCtx).toOption.getD [])
     (QCBORLabel.int64 1) rfl (by decide)⟩
